import Mathlib

/-!
Verification of the MeowterialYou core (src/util.py): the image-statistics
analyzer, WCAG contrast evaluator, adaptive terminal-transparency heuristic,
the per-descriptor filters of the template rendering engine, and the in-place
palette conversion of `Scheme.to_hex`.

Modelling conventions.
Python floats are modelled by exact rationals where every operation of the
source is rational (image statistics) and by real numbers where the source
applies a fractional power (WCAG channel linearization, and everything
downstream of it).  Python `int(x)` on a float truncates toward zero and is
modelled by `pyTrunc`.  File and image I/O is modelled by `Option`-valued
inputs: `none` stands for the branch in which the corresponding Python
`try:` block raises (unreadable/undecodable image), and an empty pixel list
is routed to the same fallback branch because the Python division by
`len(pixels)` raises `ZeroDivisionError` inside the same `try:` block.
Python `str.upper()` is modelled on ASCII by `Char.toUpper`, which agrees
with it on every character appearing in template descriptor names.
-/

/-- One RGB pixel as produced by `img.convert("RGB")`: three channels 0-255. -/
abbrev Pixel : Type := ℕ × ℕ × ℕ

/-- Diagnostic events emitted through the module-wide logger. -/
inductive LogEvent : Type
  | warning
  deriving DecidableEq

/-- `_get_image_stats` (src/util.py lines 141-182).  The decode/resize of the
image is external (PIL); its result is the pixel list argument, with `none`
for a decode failure.  Returns `(avg_brightness, normalized_variance,
avg_saturation)` together with the log events of the call.  The fallback
branch returns the neutral default `(128, 0.5, 0.5)` and logs a warning. -/
def getImageStats (decoded : Option (List Pixel)) : (ℚ × ℚ × ℚ) × List LogEvent :=
  match decoded with
  | some (p :: ps) =>
    let pixels := p :: ps
    let n : ℚ := (pixels.length : ℚ)
    let brightnesses : List ℚ :=
      pixels.map fun t => 0.299 * (t.1 : ℚ) + 0.587 * (t.2.1 : ℚ) + 0.114 * (t.2.2 : ℚ)
    let saturations : List ℚ :=
      pixels.map fun t =>
        let maxC : ℕ := max t.1 (max t.2.1 t.2.2)
        let minC : ℕ := min t.1 (min t.2.1 t.2.2)
        if 0 < maxC then ((maxC : ℚ) - (minC : ℚ)) / (maxC : ℚ) else 0
    let avgBrightness := brightnesses.sum / n
    let avgSaturation := saturations.sum / n
    let variance := (brightnesses.map fun b => (b - avgBrightness) ^ 2).sum / n
    let normalizedVariance := min (variance / 5000) 1
    ((avgBrightness, normalizedVariance, avgSaturation), [])
  | _ => ((128, 0.5, 0.5), [LogEvent.warning])

/-- The 32x32 average-wallpaper-color block of `_calculate_terminal_transparency`
(src/util.py lines 236-246): integer floor division of the channel sums by the
pixel count, with fallback `(128, 128, 128)` when the `try:` block raises. -/
def averageWallpaperRgb (decoded : Option (List Pixel)) : ℕ × ℕ × ℕ :=
  match decoded with
  | some (p :: ps) =>
    let pixels := p :: ps
    ((pixels.map (fun t => t.1)).sum / pixels.length,
     (pixels.map (fun t => t.2.1)).sum / pixels.length,
     (pixels.map (fun t => t.2.2)).sum / pixels.length)
  | _ => (128, 128, 128)

/-- Value of a single hexadecimal digit, as accepted by Python `int(s, 16)`
for plain digit characters. -/
def hexDigitVal (c : Char) : Option ℕ :=
  let n := c.toNat
  if 48 ≤ n ∧ n ≤ 57 then some (n - 48)
  else if 97 ≤ n ∧ n ≤ 102 then some (n - 87)
  else if 65 ≤ n ∧ n ≤ 70 then some (n - 55)
  else none

/-- Parse the first six characters as three two-digit hexadecimal pairs
(`int(hex_color[i:i+2], 16) for i in (0, 2, 4)`); extra trailing characters
are ignored, exactly as Python slicing ignores them.  Exotic strings that
Python `int(·, 16)` would also accept (embedded signs or whitespace) are not
modelled; every claim below quantifies only over plain 6-hex-digit colors. -/
def hexPairs6 : List Char → Option (ℕ × ℕ × ℕ)
  | c1 :: c2 :: c3 :: c4 :: c5 :: c6 :: _ =>
    match hexDigitVal c1, hexDigitVal c2, hexDigitVal c3,
          hexDigitVal c4, hexDigitVal c5, hexDigitVal c6 with
    | some a, some b, some c, some d, some e, some f =>
      some (16 * a + b, 16 * c + d, 16 * e + f)
    | _, _, _, _, _, _ => none
  | _ => none

/-- The local `hex_to_rgb` helper of `_calculate_contrast_ratio`
(src/util.py lines 191-193): strip every leading `#`, then parse three pairs. -/
def hexToRgb (s : String) : Option (ℕ × ℕ × ℕ) :=
  hexPairs6 (s.data.dropWhile (fun c => c == '#'))

/-- The `channel` linearization of `relative_luminance` (src/util.py lines
196-198): normalize to [0,1], then `c/12.92` below the 0.03928 threshold and
`((c+0.055)/1.055) ** 2.4` above it. -/
noncomputable def wcagChannel (c : ℕ) : ℝ :=
  let x : ℝ := (c : ℝ) / 255
  if x ≤ 0.03928 then x / 12.92 else ((x + 0.055) / 1.055) ^ (2.4 : ℝ)

/-- `relative_luminance` (src/util.py lines 195-201). -/
noncomputable def relativeLuminance (rgb : ℕ × ℕ × ℕ) : ℝ :=
  0.2126 * wcagChannel rgb.1 + 0.7152 * wcagChannel rgb.2.1 + 0.0722 * wcagChannel rgb.2.2

/-- `_calculate_contrast_ratio` (src/util.py lines 185-212): WCAG ratio of a
hex color against an RGB triple, with the `except:` fallback value 10 when the
hex string cannot be converted. -/
noncomputable def contrastOf (color1 : String) (color2Rgb : ℕ × ℕ × ℕ) : ℝ :=
  match hexToRgb color1 with
  | none => 10
  | some rgb1 =>
    let lum1 := relativeLuminance rgb1
    let lum2 := relativeLuminance color2Rgb
    let lighter := max lum1 lum2
    let darker := min lum1 lum2
    (lighter + 0.05) / (darker + 0.05)

/-- Python `int(x)` on a float: truncation toward zero. -/
noncomputable def pyTrunc (x : ℝ) : ℤ :=
  if 0 ≤ x then ⌊x⌋ else ⌈x⌉

/-- The arithmetic core of `_calculate_terminal_transparency` (src/util.py
lines 256-296), taking the already-computed image statistics and contrast
value: normalization, the per-mode base curve, the brightness correction, the
variance and saturation penalties, truncation and the per-mode clamp. -/
noncomputable def transparencyFromFactors
    (brightness variance saturation contrast : ℝ) (lightmodeEnabled : Bool) : ℤ :=
  let normalizedBrightness := brightness / 255
  let contrastFactor := min (contrast / 21) 1
  let base0 : ℝ :=
    if lightmodeEnabled then
      let b0 := 5 + contrastFactor * (35 - 5) * 0.6
      if normalizedBrightness < 0.4 then b0 + 10 else b0
    else
      let b0 := 20 + contrastFactor * (65 - 20) * 0.7
      if 0.6 < normalizedBrightness then b0 - 15 else b0
  let base1 := base0 - variance * 20
  let base2 := base1 - saturation * 8
  if lightmodeEnabled then max 0 (min 40 (pyTrunc base2))
  else max 15 (min 70 (pyTrunc base2))

/-- `_calculate_terminal_transparency` (src/util.py lines 215-303) as a
function of its resolved inputs: the decoded 64x64 pixel list used for the
statistics, the decoded 32x32 pixel list used for the average color (each
`none` on decode failure), the mode flag and the optional surface color.  An
empty surface string is falsy in Python, so it selects the estimated
mode-specific surface exactly like `None`. -/
noncomputable def calculateTerminalTransparency
    (statsPixels avgPixels : Option (List Pixel)) (lightmodeEnabled : Bool)
    (surfaceColor : Option String) : ℤ :=
  let stats := (getImageStats statsPixels).1
  let avgRgb := averageWallpaperRgb avgPixels
  let estimated : String := if lightmodeEnabled then "#fdfdf5" else "#1a1c1a"
  let surf : String :=
    match surfaceColor with
    | some s => if s = "" then estimated else s
    | none => estimated
  let contrast := contrastOf surf avgRgb
  transparencyFromFactors (stats.1 : ℝ) (stats.2.1 : ℝ) (stats.2.2 : ℝ)
    contrast lightmodeEnabled

/-- The transparency formula exactly as claim C3 words it: base
`5 + min(contrast/21,1)*30*0.6` (light, plus 10 when brightness/255 < 0.4) or
`20 + min(contrast/21,1)*45*0.7` (dark, minus 15 when brightness/255 > 0.6),
minus `variance*20` and `saturation*8`, truncated and clamped per mode.
Stated from the claim's words, to be compared with `transparencyFromFactors`. -/
noncomputable def claimedTransparency
    (brightness variance saturation contrast : ℝ) (lightmodeEnabled : Bool) : ℤ :=
  let cf := min (contrast / 21) 1
  let base : ℝ :=
    if lightmodeEnabled then
      5 + cf * 30 * 0.6 + (if brightness / 255 < 0.4 then 10 else 0)
    else
      20 + cf * 45 * 0.7 - (if 0.6 < brightness / 255 then 15 else 0)
  let final := base - variance * 20 - saturation * 8
  if lightmodeEnabled then max 0 (min 40 (pyTrunc final))
  else max 15 (min 70 (pyTrunc final))

/-- Python `template_name.upper()` restricted to ASCII case mapping. -/
def pyUpper (s : String) : List Char :=
  s.data.map Char.toUpper

/-- `Config._is_dark_theme` (src/util.py lines 623-626):
`name.upper().endswith("DARK")`. -/
def isDarkTheme (name : String) : Bool :=
  ("DARK").data.isSuffixOf (pyUpper name)

/-- `Config.OPTIONAL_APPS` (src/util.py lines 472-478), in declaration order. -/
def optionalApps : List (String × String) :=
  [("SPOTIFY", "THEME_SPOTIFY"),
   ("DISCORD", "THEME_DISCORD"),
   ("VSCODE", "THEME_VSCODE"),
   ("OBSIDIAN", "THEME_OBSIDIAN"),
   ("VIVALDI", "THEME_VIVALDI")]

/-- `prefs.get(pref_key, False)` on the preference mapping, modelled as an
association list with distinct keys (a Python dict). -/
def lookupPref (prefs : List (String × Bool)) (key : String) : Bool :=
  match List.lookup key prefs with
  | some b => b
  | none => false

/-- Python substring test `pat in s`, as a Boolean on character lists. -/
def tailsContains (s pat : List Char) : Bool :=
  s.tails.any pat.isPrefixOf

/-- `Config._should_skip_template` (src/util.py lines 505-514): skip when some
optional-app marker occurs in the upper-cased template name and its preference
key is not set to true.  The Python `for` loop with early `return True` is an
existential over the marker table. -/
def shouldSkipTemplate (templateName : String) (prefs : List (String × Bool)) : Bool :=
  optionalApps.any fun p => tailsContains (pyUpper templateName) p.1.data && !(lookupPref prefs p.2)

/-- Outcome of the per-descriptor control flow of `Config.generate`. -/
inductive RenderDecision : Type
  | featureDisabled
  | modeMismatch
  | proceed
  deriving DecidableEq

/-- The per-descriptor filter sequence of `Config.generate` (src/util.py lines
549-569): the preference gate (line 554) runs first, then the two mode checks
(lines 565-568); a descriptor that passes both proceeds to the I/O and
substitution stage. -/
def renderDecision (templateName : String) (prefs : List (String × Bool))
    (lightmodeEnabled : Bool) : RenderDecision :=
  if shouldSkipTemplate templateName prefs then RenderDecision.featureDisabled
  else if lightmodeEnabled && isDarkTheme templateName then RenderDecision.modeMismatch
  else if !lightmodeEnabled && !isDarkTheme templateName then RenderDecision.modeMismatch
  else RenderDecision.proceed

/-- A palette value as it evolves inside `Scheme` (src/util.py lines 654-681):
the packed integer produced by the external theme generator, the RGB tuple
form after `to_rgb`, or the hex-string form after `to_hex`. -/
inductive ColorValue : Type
  | packed (n : ℕ)
  | rgbTriple (t : ℕ × ℕ × ℕ)
  | hexStr (s : String)
  deriving DecidableEq

/-- Boolean test for the packed-integer form. -/
def isPackedValue : ColorValue → Bool
  | ColorValue.packed _ => true
  | _ => false

/-- Boolean test for the RGB-tuple form. -/
def isRgbTripleValue : ColorValue → Bool
  | ColorValue.rgbTriple _ => true
  | _ => false

/-- Boolean test for the hex-string form. -/
def isHexStrValue : ColorValue → Bool
  | ColorValue.hexStr _ => true
  | _ => false

/-- The scheme dictionary: an ordered mapping from role names to color values. -/
abbrev SchemeDict : Type := List (String × ColorValue)

/-- The `Scheme` object state: `self.scheme_dict`, which aliases the theme's
scheme `props` dictionary (src/util.py lines 655-661).  Mutation is modelled
by explicit state passing: each method returns the updated state together
with its Python return value. -/
structure Scheme : Type where
  scheme_dict : SchemeDict

/-- Modelled from the spec: `ColorTransformer.dec_to_rgb` is absent from src/;
per spec section 4.1 it converts the packed ARGB integer to an RGB triple
(the alpha byte is dropped). -/
def decToRgb (n : ℕ) : ℕ × ℕ × ℕ :=
  ((n / 65536) % 256, (n / 256) % 256, n % 256)

/-- Lowercase hexadecimal digit character for a value below 16. -/
def hexChar (n : ℕ) : Char :=
  if n < 10 then Char.ofNat (48 + n) else Char.ofNat (87 + n)

/-- Two lowercase hexadecimal digits of one byte. -/
def byteHex (n : ℕ) : String :=
  String.mk [hexChar (n / 16 % 16), hexChar (n % 16)]

/-- Modelled from the spec: `ColorTransformer.rgb_to_hex` is absent from src/;
per spec sections 4.1 and 6 it renders an RGB triple as six lowercase hex
digits without `#`. -/
def rgbToHex (t : ℕ × ℕ × ℕ) : String :=
  byteHex t.1 ++ byteHex t.2.1 ++ byteHex t.2.2

/-- `Scheme.get` (src/util.py lines 663-664): returns `self.scheme_dict`. -/
def Scheme.get (s : Scheme) : SchemeDict :=
  s.scheme_dict

/-- `Scheme.to_rgb` (src/util.py lines 666-671): overwrite every value of
`self.scheme_dict` with its RGB-tuple form and return that same dictionary.
`dec_to_rgb` is only ever applied to packed values; other forms are left
untouched by the model. -/
def Scheme.to_rgb (s : Scheme) : Scheme × SchemeDict :=
  let d := s.scheme_dict.map fun kv =>
    (kv.1, match kv.2 with
           | ColorValue.packed n => ColorValue.rgbTriple (decToRgb n)
           | v => v)
  (⟨d⟩, d)

/-- `Scheme.to_hex` (src/util.py lines 673-681): first convert the dictionary
in place to RGB tuples via `to_rgb`, then overwrite every value with
`"#" + rgb_to_hex(value)` and return the same dictionary. -/
def Scheme.to_hex (s : Scheme) : Scheme × SchemeDict :=
  let s1 := (Scheme.to_rgb s).1
  let d := s1.scheme_dict.map fun kv =>
    (kv.1, match kv.2 with
           | ColorValue.rgbTriple t => ColorValue.hexStr ("#" ++ rgbToHex t)
           | v => v)
  (⟨d⟩, d)

/-- Python `repr` of a 3-tuple of ints, as interpolated by `f"rgb{rgb_tuple}"`
(src/util.py line 593): parenthesized, with a comma and one space between
elements. -/
def pyTupleRepr3 (t : ℕ × ℕ × ℕ) : String :=
  "(" ++ Nat.repr t.1 ++ ", " ++ Nat.repr t.2.1 ++ ", " ++ Nat.repr t.2.2 ++ ")"

/-- Modelled from the spec: `ColorTransformer.hex_to_rgb` is absent from src/;
per spec section 4.1 it converts a 6-digit hex string (no `#`) to an RGB
triple of integers.  Matches the in-file parser on its argument. -/
def colorTransformerHexToRgb (s : String) : Option (ℕ × ℕ × ℕ) :=
  hexPairs6 s.data

/-- `value[1:]` applied to a palette hex value (src/util.py line 591). -/
def hexStrippedOf (value : String) : String :=
  String.mk (value.data.drop 1)

/-- `rgb_value = f"rgb{rgb_tuple}"` (src/util.py line 593). -/
def rgbValueOf (t : ℕ × ℕ × ℕ) : String :=
  "rgb" ++ pyTupleRepr3 t

/-- `rgba50_value = f"rgba({r}, {g}, {b}, 0.5)"` (src/util.py lines 594-596). -/
def rgba50ValueOf (t : ℕ × ℕ × ℕ) : String :=
  "rgba(" ++ Nat.repr t.1 ++ ", " ++ Nat.repr t.2.1 ++ ", " ++ Nat.repr t.2.2 ++ ", 0.5)"

/-- Replace every occurrence of `pat` in the character list, scanning left to
right without overlap, exactly as `re.sub` does for these metacharacter-free
literal matches.  The fuel argument (initialized to the list length by
`replaceSub`) only makes the recursion structural; one unit is spent per
consumed character, so it never runs out. -/
def replaceAux (pat rep : List Char) : ℕ → List Char → List Char
  | _, [] => []
  | 0, s => s
  | fuel+1, a :: s =>
    if pat.isPrefixOf (a :: s) && !pat.isEmpty then
      rep ++ replaceAux pat rep fuel (List.drop (pat.length - 1) s)
    else a :: replaceAux pat rep fuel s

/-- One `re.sub(pattern, value, output_data)` call of `Config.generate` for a
literal pattern. -/
def replaceSub (pat rep s : String) : String :=
  String.mk (replaceAux pat.data rep.data s.data.length s.data)

/-- One iteration of the substitution loop of `Config.generate` (src/util.py
lines 579-609) for a single palette role: the eight `re.sub` calls in source
order (bare, `.hex`, `.rgb`, `.rgba50`, wallpaper, `.hue`, `.sat`, `.light`).
The three HLS replacement strings (Python float formatting of
`ColorTransformer.hex_to_hls`, which is absent from src/) are taken as
parameters.  Returns `none` when the role's value is not parseable hex, the
case in which `ColorTransformer.hex_to_rgb` would raise (a precondition
violation per spec section 7). -/
def substRolePatterns (key value wallpaperAbs hueStr satStr lightStr templateText : String) :
    Option String :=
  let patternBare := "@\x7b" ++ key ++ "\x7d"
  let patternHex := "@\x7b" ++ key ++ ".hex\x7d"
  let patternRgb := "@\x7b" ++ key ++ ".rgb\x7d"
  let patternRgba50 := "@\x7b" ++ key ++ ".rgba50\x7d"
  let patternHue := "@\x7b" ++ key ++ ".hue\x7d"
  let patternSat := "@\x7b" ++ key ++ ".sat\x7d"
  let patternLight := "@\x7b" ++ key ++ ".light\x7d"
  let patternWallpaper := "@\x7bwallpaper\x7d"
  match colorTransformerHexToRgb (hexStrippedOf value) with
  | none => none
  | some t =>
    let step1 := replaceSub patternBare (hexStrippedOf value) templateText
    let step2 := replaceSub patternHex value step1
    let step3 := replaceSub patternRgb (rgbValueOf t) step2
    let step4 := replaceSub patternRgba50 (rgba50ValueOf t) step3
    let step5 := replaceSub patternWallpaper wallpaperAbs step4
    let step6 := replaceSub patternHue hueStr step5
    let step7 := replaceSub patternSat satStr step6
    some (replaceSub patternLight lightStr step7)

/-- C8: whenever the wallpaper image cannot be decoded, `_get_image_stats`
returns exactly the neutral default triple `(128, 0.5, 0.5)` and logs a
warning; the function is total, so no error reaches the caller. -/
theorem c8_image_stats_decode_failure :
    getImageStats none = ((128, 0.5, 0.5), [LogEvent.warning]) := rfl

/-- Characterization of the Python substring test. -/
theorem tailsContains_iff (s pat : List Char) :
    tailsContains s pat = true ↔ pat <:+: s := by
  simp only [tailsContains, List.any_eq_true, List.mem_tails, List.isPrefixOf_iff_prefix]
  constructor
  · rintro ⟨t, hts, hpt⟩
    exact List.infix_iff_prefix_suffix.mpr ⟨t, hpt, hts⟩
  · intro h
    obtain ⟨t, hpt, hts⟩ := List.infix_iff_prefix_suffix.mp h
    exact ⟨t, hts, hpt⟩

/-- The skip predicate holds exactly when some marker of the table occurs in
the upper-cased name with its preference unset or false. -/
theorem shouldSkipTemplate_eq_true_iff (name : String) (prefs : List (String × Bool)) :
    shouldSkipTemplate name prefs = true ↔
      ∃ p ∈ optionalApps, p.1.data <:+: pyUpper name ∧ lookupPref prefs p.2 = false := by
  simp only [shouldSkipTemplate, List.any_eq_true, Bool.and_eq_true, Bool.not_eq_true',
    tailsContains_iff]

/-- The per-descriptor decision is the feature-disabled skip exactly when the
skip predicate fires. -/
theorem renderDecision_eq_featureDisabled_iff (name : String)
    (prefs : List (String × Bool)) (lightmodeEnabled : Bool) :
    renderDecision name prefs lightmodeEnabled = RenderDecision.featureDisabled ↔
      shouldSkipTemplate name prefs = true := by
  unfold renderDecision
  split
  next hskip => simp [hskip]
  next hskip =>
    split
    · simp [hskip]
    · split <;> simp [hskip]

/-- C9: `_should_skip_template` returns true exactly when some marker of the
fixed table occurs case-insensitively in the template name and its preference
key is absent or false; equivalently it returns false exactly when every
matching marker's preference is enabled, so a multi-marker descriptor is
rendered only if every corresponding preference is enabled. -/
theorem c9_skip_predicate_conjunction (name : String) (prefs : List (String × Bool)) :
    (shouldSkipTemplate name prefs = true ↔
      ∃ p ∈ optionalApps, p.1.data <:+: pyUpper name ∧ lookupPref prefs p.2 = false)
  ∧ (shouldSkipTemplate name prefs = false ↔
      ∀ p ∈ optionalApps, p.1.data <:+: pyUpper name → lookupPref prefs p.2 = true) := by
  refine ⟨shouldSkipTemplate_eq_true_iff name prefs, ?_, ?_⟩
  · intro h p hp hinf
    cases hlook : lookupPref prefs p.2
    · have : shouldSkipTemplate name prefs = true :=
        (shouldSkipTemplate_eq_true_iff name prefs).mpr ⟨p, hp, hinf, hlook⟩
      rw [h] at this
      exact absurd this (by simp)
    · rfl
  · intro h
    cases hs : shouldSkipTemplate name prefs
    · rfl
    · obtain ⟨p, hp, hinf, hfalse⟩ := (shouldSkipTemplate_eq_true_iff name prefs).mp hs
      have htrue := h p hp hinf
      rw [htrue] at hfalse
      exact absurd hfalse (by simp)

/-- C5 counterexample: the descriptor name `"DISCORD-SPOTIFY"` contains the
marker `"DISCORD"` and the preference `THEME_DISCORD` is true, yet the
descriptor is skipped as feature-disabled (the unset `THEME_SPOTIFY` marker
also matches), so a matching marker with a true preference does not imply the
descriptor is rendered. -/
theorem c5_counterexample :
    (tailsContains (pyUpper ("DISCORD-SPOTIFY")) (("DISCORD").data) = true
      ∧ lookupPref [("THEME_DISCORD", true)] ("THEME_DISCORD") = true)
  ∧ renderDecision ("DISCORD-SPOTIFY") [("THEME_DISCORD", true)] true
      = RenderDecision.featureDisabled := by decide

/-- C5 (amended): a descriptor is skipped as feature-disabled exactly when
some marker of the table occurs case-insensitively in its name and that
marker's preference key is false or absent; it passes the feature gate (and
is rendered, subject to the separate mode filter and per-descriptor I/O)
exactly when every matching marker's preference is true. -/
theorem c5_feature_gate (name : String) (prefs : List (String × Bool))
    (lightmodeEnabled : Bool) :
    renderDecision name prefs lightmodeEnabled = RenderDecision.featureDisabled ↔
      ∃ p ∈ optionalApps, p.1.data <:+: pyUpper name ∧ lookupPref prefs p.2 = false := by
  rw [renderDecision_eq_featureDisabled_iff, shouldSkipTemplate_eq_true_iff]

/-- C4: the mode filter of `Config.generate` — a light-mode pass never
proceeds to render a descriptor whose name ends (case-insensitively) with the
dark suffix, and a dark-mode pass never proceeds on a descriptor whose name
does not; both directions are the single condition that the dark-suffix test
equals the light-mode flag. -/
theorem c4_mode_filtering (name : String) (prefs : List (String × Bool))
    (lightmodeEnabled : Bool) (h : isDarkTheme name = lightmodeEnabled) :
    renderDecision name prefs lightmodeEnabled ≠ RenderDecision.proceed := by
  unfold renderDecision
  cases lightmodeEnabled
  · rw [h]
    split
    · simp
    · simp
  · rw [h]
    split
    · simp
    · simp

/-- C4 witness: the descriptor `"spotify-dark"` under a light-mode pass (with
its feature preference enabled, so only the mode filter is in play) is not
rendered; it is skipped with the mode-mismatch outcome. -/
theorem c4_mode_filtering_witness :
    isDarkTheme ("spotify-dark") = true
  ∧ renderDecision ("spotify-dark") [("THEME_SPOTIFY", true)] true ≠ RenderDecision.proceed
  ∧ renderDecision ("spotify-dark") [("THEME_SPOTIFY", true)] true
      = RenderDecision.modeMismatch :=
  ⟨by decide,
   c4_mode_filtering ("spotify-dark") [("THEME_SPOTIFY", true)] true (by decide),
   by decide⟩

/-- C10: `Scheme.to_hex` converts the palette in place.  The dictionary it
returns is the very dictionary `Scheme.get` then yields from the updated
state; the intermediate `to_rgb` pass has overwritten every packed value with
an RGB tuple, and after `to_hex` every value of that dictionary is a hex
string, so the packed-integer palette form is no longer retrievable from the
`Scheme` instance. -/
theorem c10_to_hex_in_place (d : SchemeDict)
    (hall : d.all (fun kv => isPackedValue kv.2) = true) :
    ((Scheme.to_hex ⟨d⟩).2 = Scheme.get (Scheme.to_hex ⟨d⟩).1)
  ∧ (Scheme.get (Scheme.to_rgb ⟨d⟩).1).all (fun kv => isRgbTripleValue kv.2) = true
  ∧ (Scheme.get (Scheme.to_hex ⟨d⟩).1).all (fun kv => isHexStrValue kv.2) = true
  ∧ (Scheme.get (Scheme.to_hex ⟨d⟩).1).all (fun kv => !(isPackedValue kv.2)) = true := by
  have hall2 := List.all_eq_true.mp hall
  refine ⟨rfl, ?_, ?_, ?_⟩
  · apply List.all_eq_true.mpr
    intro kv hkv
    simp only [Scheme.get, Scheme.to_rgb] at hkv
    obtain ⟨kv0, hkv0, rfl⟩ := List.mem_map.mp hkv
    have hp := hall2 kv0 hkv0
    obtain ⟨k, v⟩ := kv0
    cases v with
    | packed n => rfl
    | rgbTriple t => simp [isPackedValue] at hp
    | hexStr s => simp [isPackedValue] at hp
  · apply List.all_eq_true.mpr
    intro kv hkv
    simp only [Scheme.get, Scheme.to_hex, Scheme.to_rgb, List.map_map] at hkv
    obtain ⟨kv0, hkv0, rfl⟩ := List.mem_map.mp hkv
    have hp := hall2 kv0 hkv0
    obtain ⟨k, v⟩ := kv0
    cases v with
    | packed n => rfl
    | rgbTriple t => simp [isPackedValue] at hp
    | hexStr s => simp [isPackedValue] at hp
  · apply List.all_eq_true.mpr
    intro kv hkv
    simp only [Scheme.get, Scheme.to_hex, Scheme.to_rgb, List.map_map] at hkv
    obtain ⟨kv0, hkv0, rfl⟩ := List.mem_map.mp hkv
    have hp := hall2 kv0 hkv0
    obtain ⟨k, v⟩ := kv0
    cases v with
    | packed n => rfl
    | rgbTriple t => simp [isPackedValue] at hp
    | hexStr s => simp [isPackedValue] at hp

/-- C10 witness: a one-role palette holding the packed ARGB integer
0xFF6750A4; after `to_hex` the state holds only hex strings. -/
theorem c10_to_hex_in_place_witness :
    ((Scheme.to_hex ⟨[("primary", ColorValue.packed 4285092004)]⟩).2
      = Scheme.get (Scheme.to_hex ⟨[("primary", ColorValue.packed 4285092004)]⟩).1)
  ∧ (Scheme.get (Scheme.to_rgb ⟨[("primary", ColorValue.packed 4285092004)]⟩).1).all
      (fun kv => isRgbTripleValue kv.2) = true
  ∧ (Scheme.get (Scheme.to_hex ⟨[("primary", ColorValue.packed 4285092004)]⟩).1).all
      (fun kv => isHexStrValue kv.2) = true
  ∧ (Scheme.get (Scheme.to_hex ⟨[("primary", ColorValue.packed 4285092004)]⟩).1).all
      (fun kv => !(isPackedValue kv.2)) = true :=
  c10_to_hex_in_place [("primary", ColorValue.packed 4285092004)] (by decide)

/-- Truncation toward zero is monotone. -/
theorem pyTrunc_mono {x y : ℝ} (h : x ≤ y) : pyTrunc x ≤ pyTrunc y := by
  unfold pyTrunc
  rcases le_or_lt 0 x with hx | hx
  · have hy : 0 ≤ y := le_trans hx h
    rw [if_pos hx, if_pos hy]
    exact Int.floor_le_floor h
  · rw [if_neg (not_le.mpr hx)]
    rcases le_or_lt 0 y with hy | hy
    · rw [if_pos hy]
      have h1 : ⌈x⌉ ≤ (0:ℤ) := Int.ceil_le.mpr (by push_cast; linarith)
      have h2 : (0:ℤ) ≤ ⌊y⌋ := Int.floor_nonneg.mpr hy
      omega
    · rw [if_neg (not_le.mpr hy)]
      exact Int.ceil_le_ceil h

/-- The final clamp of the heuristic bounds its result per mode, for every
value of the statistics and contrast factors. -/
theorem transparencyFromFactors_bounds (b v s c : ℝ) (m : Bool) :
    (if m then (0:ℤ) else 15) ≤ transparencyFromFactors b v s c m
  ∧ transparencyFromFactors b v s c m ≤ (if m then (40:ℤ) else 70) := by
  unfold transparencyFromFactors
  cases m <;> simp

/-- C2: for every wallpaper decode outcome (including the decode-failure
fallbacks of both the statistics pass and the average-color pass), mode flag
and optional surface color, the transparency returned by
`_calculate_terminal_transparency` lies in [15,70] in dark mode and [0,40] in
light mode. -/
theorem c2_transparency_bounds (statsPixels avgPixels : Option (List Pixel))
    (lightmodeEnabled : Bool) (surfaceColor : Option String) :
    (if lightmodeEnabled then (0:ℤ) else 15)
        ≤ calculateTerminalTransparency statsPixels avgPixels lightmodeEnabled surfaceColor
  ∧ calculateTerminalTransparency statsPixels avgPixels lightmodeEnabled surfaceColor
        ≤ (if lightmodeEnabled then (40:ℤ) else 70) := by
  unfold calculateTerminalTransparency
  exact transparencyFromFactors_bounds _ _ _ _ _

/-- C3: the heuristic computes exactly the claimed closed form — base
`5 + min(contrast/21,1)*30*0.6` in light mode (plus 10 when brightness/255 is
below 0.4) or `20 + min(contrast/21,1)*45*0.7` in dark mode (minus 15 when
brightness/255 exceeds 0.6), minus `variance*20` and `saturation*8`,
truncated to an integer and clamped to the per-mode range. -/
theorem c3_transparency_formula (b v s c : ℝ) (m : Bool) :
    transparencyFromFactors b v s c m = claimedTransparency b v s c m := by
  unfold transparencyFromFactors claimedTransparency
  dsimp only
  cases m
  · simp only [Bool.false_eq_true, if_false]
    split_ifs with h
    · refine congrArg _ (congrArg _ (congrArg _ ?_))
      ring
    · refine congrArg _ (congrArg _ (congrArg _ ?_))
      ring
  · simp only [if_true]
    split_ifs with h
    · refine congrArg _ (congrArg _ (congrArg _ ?_))
      ring
    · refine congrArg _ (congrArg _ (congrArg _ ?_))
      ring

/-- C6: with brightness, saturation and contrast held fixed, increasing the
normalized variance within [0,1] never increases the computed transparency, in
either mode. -/
theorem c6_variance_monotonic (b s c : ℝ) (m : Bool) (v1 v2 : ℝ)
    (h0 : 0 ≤ v1) (h12 : v1 ≤ v2) (h1 : v2 ≤ 1) :
    transparencyFromFactors b v2 s c m ≤ transparencyFromFactors b v1 s c m := by
  unfold transparencyFromFactors
  dsimp only
  cases m
  · simp only [Bool.false_eq_true, if_false]
    split_ifs with h
    · exact max_le_max le_rfl (min_le_min le_rfl (pyTrunc_mono (by linarith)))
    · exact max_le_max le_rfl (min_le_min le_rfl (pyTrunc_mono (by linarith)))
  · simp only [if_true]
    split_ifs with h
    · exact max_le_max le_rfl (min_le_min le_rfl (pyTrunc_mono (by linarith)))
    · exact max_le_max le_rfl (min_le_min le_rfl (pyTrunc_mono (by linarith)))

/-- C6 witness: raising variance from 0 to 1 at fixed brightness 128,
saturation 0, contrast 10, dark mode, does not increase the result. -/
theorem c6_variance_monotonic_witness :
    ((0:ℝ) ≤ 0 ∧ (0:ℝ) ≤ 1 ∧ (1:ℝ) ≤ 1)
  ∧ transparencyFromFactors 128 1 0 10 false ≤ transparencyFromFactors 128 0 0 10 false :=
  ⟨⟨le_refl 0, by norm_num, le_refl 1⟩,
   c6_variance_monotonic 128 0 10 false 0 1 (le_refl 0) (by norm_num) (le_refl 1)⟩

/-- The WCAG channel linearization is nonnegative. -/
theorem wcagChannel_nonneg (c : ℕ) : 0 ≤ wcagChannel c := by
  unfold wcagChannel
  dsimp only
  split
  · positivity
  · apply Real.rpow_nonneg
    positivity

/-- The WCAG channel linearization of an in-range channel is at most one. -/
theorem wcagChannel_le_one (c : ℕ) (h : c ≤ 255) : wcagChannel c ≤ 1 := by
  unfold wcagChannel
  dsimp only
  have hx1 : (c : ℝ) / 255 ≤ 1 := by
    rw [div_le_one (by norm_num)]
    exact_mod_cast Nat.cast_le.mpr h
  split
  next hle =>
    rw [div_le_one (by norm_num)]
    linarith
  next hgt =>
    apply Real.rpow_le_one
    · positivity
    · rw [div_le_one (by norm_num)]
      linarith
    · norm_num

/-- Relative luminance is nonnegative. -/
theorem relativeLuminance_nonneg (rgb : ℕ × ℕ × ℕ) : 0 ≤ relativeLuminance rgb := by
  unfold relativeLuminance
  have g1 := wcagChannel_nonneg rgb.1
  have g2 := wcagChannel_nonneg rgb.2.1
  have g3 := wcagChannel_nonneg rgb.2.2
  nlinarith

/-- Relative luminance of an in-range color is at most one: the channel
weights sum to exactly one. -/
theorem relativeLuminance_le_one (rgb : ℕ × ℕ × ℕ)
    (h1 : rgb.1 ≤ 255) (h2 : rgb.2.1 ≤ 255) (h3 : rgb.2.2 ≤ 255) :
    relativeLuminance rgb ≤ 1 := by
  unfold relativeLuminance
  have g1 := wcagChannel_le_one rgb.1 h1
  have g2 := wcagChannel_le_one rgb.2.1 h2
  have g3 := wcagChannel_le_one rgb.2.2 h3
  have g4 := wcagChannel_nonneg rgb.1
  have g5 := wcagChannel_nonneg rgb.2.1
  have g6 := wcagChannel_nonneg rgb.2.2
  nlinarith

/-- A single parsed hexadecimal digit is at most 15. -/
theorem hexDigitVal_le {c : Char} {n : ℕ} (h : hexDigitVal c = some n) : n ≤ 15 := by
  unfold hexDigitVal at h
  dsimp only at h
  split_ifs at h with h1 h2 h3 <;> cases h <;> omega

/-- Each channel parsed from two hexadecimal digits is at most 255. -/
theorem hexPairs6_le {l : List Char} {t : ℕ × ℕ × ℕ} (h : hexPairs6 l = some t) :
    t.1 ≤ 255 ∧ t.2.1 ≤ 255 ∧ t.2.2 ≤ 255 := by
  unfold hexPairs6 at h
  split at h
  · split at h
    next a b c d e f ha hb hc hd he hf =>
      cases h
      have b1 := hexDigitVal_le ha
      have b2 := hexDigitVal_le hb
      have b3 := hexDigitVal_le hc
      have b4 := hexDigitVal_le hd
      have b5 := hexDigitVal_le he
      have b6 := hexDigitVal_le hf
      dsimp only
      refine ⟨by omega, by omega, by omega⟩
    next => exact absurd h (by simp)
  · exact absurd h (by simp)

/-- Channel bounds for the contrast evaluator's own hex parser. -/
theorem hexToRgb_le {s : String} {t : ℕ × ℕ × ℕ} (h : hexToRgb s = some t) :
    t.1 ≤ 255 ∧ t.2.1 ≤ 255 ∧ t.2.2 ≤ 255 :=
  hexPairs6_le h

/-- C7: for every valid 6-hex-digit foreground color and every RGB triple
with channels in 0-255, `_calculate_contrast_ratio` returns a value in
[1,21]; and evaluated against its own parsed RGB form it returns exactly 1. -/
theorem c7_contrast_bounds (s : String) (r1 rgb2 : ℕ × ℕ × ℕ)
    (hparse : hexToRgb s = some r1)
    (h1 : rgb2.1 ≤ 255) (h2 : rgb2.2.1 ≤ 255) (h3 : rgb2.2.2 ≤ 255) :
    ((1:ℝ) ≤ contrastOf s rgb2 ∧ contrastOf s rgb2 ≤ 21) ∧ contrastOf s r1 = 1 := by
  have hr1 := hexToRgb_le hparse
  have lumA0 := relativeLuminance_nonneg r1
  have lumA1 := relativeLuminance_le_one r1 hr1.1 hr1.2.1 hr1.2.2
  have lumB0 := relativeLuminance_nonneg rgb2
  have lumB1 := relativeLuminance_le_one rgb2 h1 h2 h3
  have hden : (0:ℝ) < min (relativeLuminance r1) (relativeLuminance rgb2) + 0.05 := by
    have := le_min lumA0 lumB0
    linarith
  refine ⟨⟨?_, ?_⟩, ?_⟩
  · unfold contrastOf
    rw [hparse]
    dsimp only
    rw [one_le_div hden]
    have := min_le_max (a := relativeLuminance r1) (b := relativeLuminance rgb2)
    linarith
  · unfold contrastOf
    rw [hparse]
    dsimp only
    rw [div_le_iff₀ hden]
    have hmax : max (relativeLuminance r1) (relativeLuminance rgb2) ≤ 1 := max_le lumA1 lumB1
    have hmin : 0 ≤ min (relativeLuminance r1) (relativeLuminance rgb2) := le_min lumA0 lumB0
    linarith
  · unfold contrastOf
    rw [hparse]
    dsimp only
    rw [max_self, min_self]
    have hpos : (0:ℝ) < relativeLuminance r1 + 0.05 := by linarith
    exact div_self (ne_of_gt hpos)

/-- C7 witness: the primary color `#6750a4` against white stays within
[1,21], and against its own parsed RGB triple the ratio is exactly 1. -/
theorem c7_contrast_bounds_witness :
    ((1:ℝ) ≤ contrastOf ("#6750a4") (255, 255, 255)
      ∧ contrastOf ("#6750a4") (255, 255, 255) ≤ 21)
  ∧ contrastOf ("#6750a4") (103, 80, 164) = 1 :=
  c7_contrast_bounds ("#6750a4") (103, 80, 164) (255, 255, 255)
    (by decide) (by decide) (by decide) (by decide)

/-- Decimal digit characters are digits. -/
theorem digitChar_isDigit {m : ℕ} (h : m < 10) : (Nat.digitChar m).isDigit = true := by
  interval_cases m <;> decide

/-- The digit character of a value reduced mod 10 is a digit. -/
theorem digitChar_mod_isDigit (n : ℕ) : (Nat.digitChar (n % 10)).isDigit = true :=
  digitChar_isDigit (Nat.mod_lt _ (by norm_num))

/-- Every character produced by the base-10 digit accumulator is either from
the accumulator or a decimal digit. -/
theorem toDigitsCore_mem (fuel : ℕ) : ∀ (n : ℕ) (acc : List Char) (c : Char),
    c ∈ Nat.toDigitsCore 10 fuel n acc → c ∈ acc ∨ c.isDigit = true := by
  induction fuel with
  | zero =>
    intro n acc c hc
    simp only [Nat.toDigitsCore] at hc
    exact Or.inl hc
  | succ fuel ih =>
    intro n acc c hc
    simp only [Nat.toDigitsCore] at hc
    split at hc
    · rcases List.mem_cons.mp hc with h | h
      · exact Or.inr (h ▸ digitChar_mod_isDigit n)
      · exact Or.inl h
    · rcases ih (n / 10) (Nat.digitChar (n % 10) :: acc) c hc with h | h
      · rcases List.mem_cons.mp h with h2 | h2
        · exact Or.inr (h2 ▸ digitChar_mod_isDigit n)
        · exact Or.inl h2
      · exact Or.inr h

/-- Every character of the decimal representation of a natural number is a
decimal digit. -/
theorem natRepr_isDigit (n : ℕ) : ∀ c ∈ (Nat.repr n).data, c.isDigit = true := by
  intro c hc
  simp only [Nat.repr, Nat.toDigits, List.asString] at hc
  rcases toDigitsCore_mem (n + 1) n [] c hc with h | h
  · simp at h
  · exact h

/-- Replacement is the identity on a text that does not contain the pattern's
first character. -/
theorem replaceAux_not_mem {pat rep : List Char} {c0 : Char} {pt : List Char}
    (hpat : pat = c0 :: pt) :
    ∀ (fuel : ℕ) (s : List Char), c0 ∉ s → replaceAux pat rep fuel s = s := by
  intro fuel
  induction fuel with
  | zero =>
    intro s hs
    cases s with
    | nil => rfl
    | cons a s2 => rfl
  | succ fuel ih =>
    intro s hs
    cases s with
    | nil => rfl
    | cons a s2 =>
      have hne : pat.isPrefixOf (a :: s2) = false := by
        rw [hpat]
        simp only [List.isPrefixOf]
        have hc : (c0 == a) = false :=
          beq_eq_false_iff_ne.mpr (fun he => hs (he ▸ List.mem_cons_self a s2))
        rw [hc, Bool.false_and]
      rw [replaceAux, hne]
      simp only [Bool.false_and, Bool.false_eq_true, if_false]
      rw [ih s2 (fun hm => hs (List.mem_cons_of_mem a hm))]

/-- String version of `replaceAux_not_mem` for patterns starting with a
character absent from the text. -/
theorem replaceSub_no_first (p r s : String) {c0 : Char} {pt : List Char}
    (hp : p.data = c0 :: pt) (hs : c0 ∉ s.data) : replaceSub p r s = s := by
  unfold replaceSub
  rw [replaceAux_not_mem hp _ _ hs]

/-- The `rgba50` replacement string never contains the placeholder sigil. -/
theorem at_not_mem_rgba50 (t : ℕ × ℕ × ℕ) : '@' ∉ (rgba50ValueOf t).data := by
  unfold rgba50ValueOf
  intro hmem
  simp only [String.data_append, List.mem_append] at hmem
  rcases hmem with ((((((h | h) | h) | h) | h) | h) | h) <;>
    first
      | exact absurd h (by decide)
      | exact absurd (natRepr_isDigit _ _ h) (by decide)

/-- C1 counterexample: for the surface color `#1A1C1E` the substitution loop
replaces `@{surface.rgba50}` with `rgba(26, 28, 30, 0.5)` — a space follows
each comma (Python tuple/f-string formatting) — so the rendered text is not
the claimed exact `rgba(26,28,30,0.5)` and does not even contain that string. -/
theorem c1_counterexample :
    substRolePatterns ("surface") ("#1A1C1E") ("/wp.png") ("0") ("0") ("0")
        ("color: @\x7bsurface.rgba50\x7d;")
      = some ("color: rgba(26, 28, 30, 0.5);")
  ∧ ("color: rgba(26, 28, 30, 0.5);") ≠ ("color: rgba(26,28,30,0.5);")
  ∧ tailsContains (("color: rgba(26, 28, 30, 0.5);").data)
      (("rgba(26,28,30,0.5)").data) = false := by decide

/-- C1 (amended): for every palette role value `#rrggbb` parsing to channels
(R,G,B), the string substituted for `@{role.rgb}` is exactly
`rgb(R, G, B)` and the one substituted for `@{role.rgba50}` is exactly
`rgba(R, G, B, 0.5)` — decimal, with a space after each comma — and rendering
a template consisting of the `rgba50` placeholder for the role `surface`
produces exactly that replacement string. -/
theorem c1_rgb_substitutions (value wallpaperAbs hueStr satStr lightStr : String)
    (R G B : ℕ)
    (hval : colorTransformerHexToRgb (hexStrippedOf value) = some (R, G, B)) :
    rgbValueOf (R, G, B)
      = "rgb(" ++ Nat.repr R ++ ", " ++ Nat.repr G ++ ", " ++ Nat.repr B ++ ")"
  ∧ rgba50ValueOf (R, G, B)
      = "rgba(" ++ Nat.repr R ++ ", " ++ Nat.repr G ++ ", " ++ Nat.repr B ++ ", 0.5)"
  ∧ substRolePatterns ("surface") value wallpaperAbs hueStr satStr lightStr
        ("@\x7bsurface.rgba50\x7d")
      = some (rgba50ValueOf (R, G, B)) := by
  refine ⟨?_, rfl, ?_⟩
  · unfold rgbValueOf pyTupleRepr3
    dsimp only
    simp only [← String.append_assoc]
    rw [show ("rgb" ++ "(" : String) = "rgb(" from rfl]
  · unfold substRolePatterns
    rw [hval]
    dsimp only
    have h1 : replaceSub ("@\x7b" ++ "surface" ++ "\x7d") (hexStrippedOf value)
        ("@\x7bsurface.rgba50\x7d") = ("@\x7bsurface.rgba50\x7d") := rfl
    have h2 : replaceSub ("@\x7b" ++ "surface" ++ ".hex\x7d") value
        ("@\x7bsurface.rgba50\x7d") = ("@\x7bsurface.rgba50\x7d") := rfl
    have h3 : replaceSub ("@\x7b" ++ "surface" ++ ".rgb\x7d") (rgbValueOf (R, G, B))
        ("@\x7bsurface.rgba50\x7d") = ("@\x7bsurface.rgba50\x7d") := rfl
    have h4 : replaceSub ("@\x7b" ++ "surface" ++ ".rgba50\x7d") (rgba50ValueOf (R, G, B))
        ("@\x7bsurface.rgba50\x7d") = rgba50ValueOf (R, G, B) := by
      show String.mk ((rgba50ValueOf (R, G, B)).data ++ []) = rgba50ValueOf (R, G, B)
      rw [List.append_nil]
    have h5 : replaceSub ("@\x7bwallpaper\x7d") wallpaperAbs (rgba50ValueOf (R, G, B))
        = rgba50ValueOf (R, G, B) :=
      replaceSub_no_first _ _ _ rfl (at_not_mem_rgba50 _)
    have h6 : replaceSub ("@\x7b" ++ "surface" ++ ".hue\x7d") hueStr
        (rgba50ValueOf (R, G, B)) = rgba50ValueOf (R, G, B) :=
      replaceSub_no_first _ _ _ rfl (at_not_mem_rgba50 _)
    have h7 : replaceSub ("@\x7b" ++ "surface" ++ ".sat\x7d") satStr
        (rgba50ValueOf (R, G, B)) = rgba50ValueOf (R, G, B) :=
      replaceSub_no_first _ _ _ rfl (at_not_mem_rgba50 _)
    have h8 : replaceSub ("@\x7b" ++ "surface" ++ ".light\x7d") lightStr
        (rgba50ValueOf (R, G, B)) = rgba50ValueOf (R, G, B) :=
      replaceSub_no_first _ _ _ rfl (at_not_mem_rgba50 _)
    rw [h1, h2, h3, h4, h5, h6, h7, h8]

/-- C1 witness: the surface color `#1A1C1E` parses to (26, 28, 30) and its
substitution strings carry the spaced format. -/
theorem c1_rgb_substitutions_witness :
    (colorTransformerHexToRgb (hexStrippedOf ("#1A1C1E")) = some (26, 28, 30))
  ∧ (rgbValueOf (26, 28, 30)
      = "rgb(" ++ Nat.repr 26 ++ ", " ++ Nat.repr 28 ++ ", " ++ Nat.repr 30 ++ ")"
    ∧ rgba50ValueOf (26, 28, 30)
      = "rgba(" ++ Nat.repr 26 ++ ", " ++ Nat.repr 28 ++ ", " ++ Nat.repr 30 ++ ", 0.5)"
    ∧ substRolePatterns ("surface") ("#1A1C1E") ("/wp.png") ("0.6") ("0.1") ("0.1")
        ("@\x7bsurface.rgba50\x7d")
      = some (rgba50ValueOf (26, 28, 30))) :=
  ⟨by decide,
   c1_rgb_substitutions ("#1A1C1E") ("/wp.png") ("0.6") ("0.1") ("0.1") 26 28 30 (by decide)⟩
